import Mathlib

/-!
Verification of the Pixelart.os frame-transform engine and its playback/export
driver against the repository's specification.

The engine (`applyFiltersToCanvas` in the image-filter module) is embedded as a
pure function over rational-valued pixel data.  Platform pieces that the code
calls but does not define are abstracted exactly where the spec declares their
behaviour non-load-bearing:

* the resampling blit `drawImage(source, 0, 0, w, h)` is a parameter
  `src : ℕ → ℕ → ℕ → ℕ → Rgb` giving the working-buffer contents for a given
  working size `(w, h)` — the spec says the exact filter kernel is not
  load-bearing, only the dimensions are;
* `Math.random()` (one fresh draw per working pixel) is a parameter
  `rnd : ℕ → ℕ → ℚ` indexed by pixel coordinates;
* `Math.sqrt` is a parameter `sq : ℚ → ℚ` (its float value is irrational on the
  halftone inputs and no claim depends on it);
* `getImageData` on a zero-area rectangle throws (platform IndexSizeError), so
  the transform is `Option`-valued and returns `none` when either working
  dimension floors to zero.  The repository contains no validation of its own.

Machine numbers (JS doubles) are idealised as ℚ; channel values read from the
`Uint8ClampedArray` image data are naturals in 0..255.
-/

/-- An RGB triple as produced by `hexToRgb` / read from image data. -/
structure Rgb where
  r : ℕ
  g : ℕ
  b : ℕ

/-- An RGBA sample of the output image data. -/
structure Rgba where
  r : ℕ
  g : ℕ
  b : ℕ
  a : ℕ

/-- The `FilterSettings` record (types.ts).  `mode` is a string, as the TS
enum `DitherMode` is string-valued; `pixelSize` is an integer ≥ 1 per the spec
(the slider yields `parseInt` values in [1,24]).  `colorA`/`colorB` are hex
strings parsed by `hexToRgb` inside the engine, exactly as in the source. -/
structure FilterSettings where
  pixelSize : ℕ
  contrast : ℚ
  brightness : ℚ
  threshold : ℚ
  mode : String
  invert : Bool
  dotScale : ℚ
  colorA : String
  colorB : String

/-- Value of one hex digit character; non-hex characters give 0 (the claims
only exercise well-formed 7-character hex strings). -/
def hexDigitVal (c : Char) : ℕ :=
  if '0' ≤ c ∧ c ≤ '9' then c.toNat - 48
  else if 'a' ≤ c ∧ c ≤ 'f' then c.toNat - 87
  else if 'A' ≤ c ∧ c ≤ 'F' then c.toNat - 55
  else 0

/-- Source `hexToRgb` from the filter module: `parseInt(hex.slice(1,3), 16)` and the
two following two-character slices. -/
def hexToRgb (hex : String) : Rgb :=
  let cs := hex.data
  { r := 16 * hexDigitVal (cs.getD 1 '0') + hexDigitVal (cs.getD 2 '0')
    g := 16 * hexDigitVal (cs.getD 3 '0') + hexDigitVal (cs.getD 4 '0')
    b := 16 * hexDigitVal (cs.getD 5 '0') + hexDigitVal (cs.getD 6 '0') }

/-- The `BAYER_4X4` constant: the integer matrix with every entry divided
by 16, as in the source's `.map(row => row.map(v => v / 16))`. -/
def BAYER_4X4 : List (List ℚ) :=
  ([[0, 8, 2, 10], [12, 4, 14, 6], [3, 11, 1, 9], [15, 7, 13, 5]] : List (List ℚ)).map
    (fun row => row.map (fun v => v / 16))

/-- Matrix lookup `BAYER_4X4[y % 4][x % 4]`. -/
def bayerAt (x y : ℕ) : ℚ :=
  (BAYER_4X4.getD (y % 4) []).getD (x % 4) 0

/-- Source `const contrastFactor = (259 * (contrast + 255)) / (255 * (259 - contrast))`. -/
def contrastFactor (contrast : ℚ) : ℚ :=
  (259 * (contrast + 255)) / (255 * (259 - contrast))

/-- Source `r = contrastFactor * (r - 128) + 128 + brightness` (same for g and b);
note there is no clamping of the adjusted channel in the source. -/
def adjustChannel (contrast brightness c : ℚ) : ℚ :=
  contrastFactor contrast * (c - 128) + 128 + brightness

/-- Source `let gray = (0.299 * r + 0.587 * g + 0.114 * b) / 255`. -/
def luminance (r g b : ℚ) : ℚ :=
  (0.299 * r + 0.587 * g + 0.114 * b) / 255

/-- Source `gray = Math.min(1, Math.max(0, gray))`. -/
def clamp01 (x : ℚ) : ℚ :=
  min 1 (max 0 x)

/-- The full per-pixel tone step of the engine: contrast/brightness adjustment
of each channel (unclamped), then luminance, then clamp to [0, 1]. -/
def grayOf (contrast brightness : ℚ) (p : Rgb) : ℚ :=
  clamp01 (luminance (adjustChannel contrast brightness (p.r : ℚ))
                     (adjustChannel contrast brightness (p.g : ℚ))
                     (adjustChannel contrast brightness (p.b : ℚ)))

/-- Comparison definition following the spec's words only: the tone step as it
would be WITH the intermediate channels clamped to [0, 255] before the
luminance computation.  The spec asserts the engine does NOT do this; this
definition exists solely to be compared with `grayOf`. -/
def grayOfClampedChannels (contrast brightness : ℚ) (p : Rgb) : ℚ :=
  clamp01 (luminance (min 255 (max 0 (adjustChannel contrast brightness (p.r : ℚ))))
                     (min 255 (max 0 (adjustChannel contrast brightness (p.g : ℚ))))
                     (min 255 (max 0 (adjustChannel contrast brightness (p.b : ℚ)))))

/-- The `switch (mode)` dither decision of the engine, over the destructured
settings fields it reads.  Branches in source order: BAYER, HALFTONE,
STOCHASTIC, and THRESHOLD together with `default` as the final branch. -/
def ditherOutput (mode : String) (threshold dotScale : ℚ) (rnd : ℕ → ℕ → ℚ)
    (sq : ℚ → ℚ) (x y : ℕ) (gray : ℚ) : ℕ :=
  if mode = "BAYER" then
    if gray > bayerAt x y * 0.8 + threshold / 255 * 0.2 then 1 else 0
  else if mode = "HALFTONE" then
    let dx : ℚ := ((x % 2 : ℕ) : ℚ) / 2 - 0.5
    let dy : ℚ := ((y % 2 : ℕ) : ℚ) / 2 - 0.5
    if gray > sq (dx * dx + dy * dy) * dotScale + threshold / 255 * 0.2 then 1 else 0
  else if mode = "STOCHASTIC" then
    if gray > rnd x y * 0.6 + threshold / 255 * 0.4 then 1 else 0
  else
    if gray > threshold / 255 then 1 else 0

/-- The dither decision followed by `if (invert) output = 1 - output`. -/
def pixelBit (mode : String) (threshold dotScale : ℚ) (invert : Bool)
    (rnd : ℕ → ℕ → ℚ) (sq : ℚ → ℚ) (x y : ℕ) (gray : ℚ) : ℕ :=
  let o := ditherOutput mode threshold dotScale rnd sq x y gray
  if invert then 1 - o else o

/-- One working-buffer pixel after the engine loop body: tone adjustment,
dither decision, invert, palette map, alpha forced to 255. -/
def workingPixel (s : FilterSettings) (src : ℕ → ℕ → ℕ → ℕ → Rgb)
    (rnd : ℕ → ℕ → ℚ) (sq : ℚ → ℚ) (w h x y : ℕ) : Rgba :=
  let gray := grayOf s.contrast s.brightness (src w h x y)
  let c := if pixelBit s.mode s.threshold s.dotScale s.invert rnd sq x y gray = 1
           then hexToRgb s.colorB else hexToRgb s.colorA
  ⟨c.r, c.g, c.b, 255⟩

/-- Source `const w = Math.floor(sourceWidth * scale)` with `scale = 1 / pixelSize`. -/
def workingWidth (sourceWidth pixelSize : ℕ) : ℕ :=
  Int.toNat ⌊(sourceWidth : ℚ) * (1 / (pixelSize : ℚ))⌋

/-- Source `const h = Math.floor(sourceHeight * scale)` with `scale = 1 / pixelSize`. -/
def workingHeight (sourceHeight pixelSize : ℕ) : ℕ :=
  Int.toNat ⌊(sourceHeight : ℚ) * (1 / (pixelSize : ℚ))⌋

/-- The output canvas contents: dimensions plus the RGBA sample at each
coordinate. -/
@[ext]
structure Buffer where
  width : ℕ
  height : ℕ
  pix : ℕ → ℕ → Rgba

/-- The engine `applyFiltersToCanvas`: compute the working dimensions, fill the
working buffer (tone, dither, invert, palette map per pixel), then set the
output canvas to the ORIGINAL source dimensions and blit the working buffer up
to it with smoothing disabled (nearest-neighbour sampling; the exact kernel is
not load-bearing per the spec, only that output pixels sample working-buffer
pixels).  Returns `none` when a working dimension floors to zero, because the
platform `getImageData(0, 0, w, h)` call throws on a zero-area rectangle and
the source performs no dimension validation of its own. -/
def applyFiltersToCanvas (src : ℕ → ℕ → ℕ → ℕ → Rgb) (sourceWidth sourceHeight : ℕ)
    (s : FilterSettings) (rnd : ℕ → ℕ → ℚ) (sq : ℚ → ℚ) : Option Buffer :=
  let w := workingWidth sourceWidth s.pixelSize
  let h := workingHeight sourceHeight s.pixelSize
  if w = 0 ∨ h = 0 then none
  else some
    { width := sourceWidth
      height := sourceHeight
      pix := fun X Y => workingPixel s src rnd sq w h (X * w / sourceWidth) (Y * h / sourceHeight) }

/-- Constant `DEFAULT_SETTINGS` from App.tsx. -/
def DEFAULT_SETTINGS : FilterSettings :=
  { pixelSize := 4
    contrast := 40
    brightness := 0
    threshold := 128
    mode := "BAYER"
    invert := false
    dotScale := 1.2
    colorA := "#000000"
    colorB := "#FFFFFF" }

/-- A solid mid-gray source (the spec's scenario input), at every working size. -/
def midGraySource : ℕ → ℕ → ℕ → ℕ → Rgb :=
  fun _ _ _ _ => ⟨128, 128, 128⟩

/-- A degenerate stand-in for the platform random source. -/
def rndZero : ℕ → ℕ → ℚ := fun _ _ => 0

/-- A degenerate stand-in for the platform square root. -/
def sqrtZero : ℚ → ℚ := fun _ => 0

/-- The floor-of-scaled-width computation is exactly natural (floor) division
of the source dimension by the pixel size. -/
theorem workingWidth_eq (W p : ℕ) : workingWidth W p = W / p := by
  rw [workingWidth, mul_one_div, Int.floor_toNat, Nat.floor_div_nat, Nat.floor_natCast]

/-- The floor-of-scaled-height computation is exactly natural (floor) division
of the source dimension by the pixel size. -/
theorem workingHeight_eq (H p : ℕ) : workingHeight H p = H / p := by
  rw [workingHeight, mul_one_div, Int.floor_toNat, Nat.floor_div_nat, Nat.floor_natCast]

example : workingWidth 8 4 = 2 := by rw [workingWidth_eq]
example : workingWidth 2 4 = 0 := by rw [workingWidth_eq]
example : bayerAt 0 0 = 0 := by norm_num [bayerAt, BAYER_4X4]
example : bayerAt 1 0 = 1 / 2 := by norm_num [bayerAt, BAYER_4X4]
example : (hexToRgb "#FFFFFF").r = 255 := by decide
example : (hexToRgb "#8bac0f").g = 172 := by decide
example : grayOf 0 0 ⟨128, 128, 128⟩ = 128 / 255 := by
  norm_num [grayOf, clamp01, luminance, adjustChannel, contrastFactor, min_def, max_def]

/-- Unfolded form of the engine with the working dimensions written as natural
(floor) division. -/
theorem applyFilters_spec (src : ℕ → ℕ → ℕ → ℕ → Rgb) (W H : ℕ) (s : FilterSettings)
    (rnd : ℕ → ℕ → ℚ) (sq : ℚ → ℚ) :
    applyFiltersToCanvas src W H s rnd sq =
      if W / s.pixelSize = 0 ∨ H / s.pixelSize = 0 then none
      else some
        { width := W
          height := H
          pix := fun X Y => workingPixel s src rnd sq (W / s.pixelSize) (H / s.pixelSize)
            (X * (W / s.pixelSize) / W) (Y * (H / s.pixelSize) / H) } := by
  simp only [applyFiltersToCanvas, workingWidth_eq, workingHeight_eq]

/-- C1: for every source with positive dimensions and every configuration with
pixelSize ≥ 1, the working buffer has dimensions
(floor(sourceWidth/pixelSize), floor(sourceHeight/pixelSize)), and whenever the
transform produces an output buffer it has exactly the original source
dimensions — moreover an output buffer is produced whenever neither working
dimension floors to zero. -/
theorem c1_buffer_dimensions (src : ℕ → ℕ → ℕ → ℕ → Rgb) (W H : ℕ) (s : FilterSettings)
    (rnd : ℕ → ℕ → ℚ) (sq : ℚ → ℚ) (hW : 0 < W) (hH : 0 < H) (hp : 1 ≤ s.pixelSize) :
    workingWidth W s.pixelSize = W / s.pixelSize ∧
    workingHeight H s.pixelSize = H / s.pixelSize ∧
    (∀ buf, applyFiltersToCanvas src W H s rnd sq = some buf →
      buf.width = W ∧ buf.height = H) ∧
    (0 < W / s.pixelSize → 0 < H / s.pixelSize →
      ∃ buf, applyFiltersToCanvas src W H s rnd sq = some buf ∧
        buf.width = W ∧ buf.height = H) := by
  refine ⟨workingWidth_eq W s.pixelSize, workingHeight_eq H s.pixelSize, ?_, ?_⟩
  · intro buf hbuf
    rw [applyFilters_spec] at hbuf
    by_cases hz : W / s.pixelSize = 0 ∨ H / s.pixelSize = 0
    · rw [if_pos hz] at hbuf
      cases hbuf
    · rw [if_neg hz] at hbuf
      simp only [Option.some.injEq] at hbuf
      subst hbuf
      exact ⟨rfl, rfl⟩
  · intro hw hh
    rw [applyFilters_spec, if_neg (by omega)]
    exact ⟨_, rfl, rfl, rfl⟩

/-- Witness for C1 at the spec's own scenario: an 8×8 source with the default
settings (pixelSize 4). -/
theorem c1_witness :
    workingWidth 8 DEFAULT_SETTINGS.pixelSize = 8 / DEFAULT_SETTINGS.pixelSize ∧
    workingHeight 8 DEFAULT_SETTINGS.pixelSize = 8 / DEFAULT_SETTINGS.pixelSize :=
  ⟨(c1_buffer_dimensions midGraySource 8 8 DEFAULT_SETTINGS rndZero sqrtZero
      (by decide) (by decide) (by decide)).1,
   (c1_buffer_dimensions midGraySource 8 8 DEFAULT_SETTINGS rndZero sqrtZero
      (by decide) (by decide) (by decide)).2.1⟩

/-- C2 (code-bug demonstration): the engine performs no dimension validation at
all — there is no InvalidDimensions error anywhere in the code.  When pixelSize
exceeds a source dimension the working buffer silently floors to zero in that
axis and the transform dies on the platform's zero-area `getImageData` call
(modelled as `none`), not on any validation. -/
theorem c2_no_invalid_dimensions_error :
    (∀ (src : ℕ → ℕ → ℕ → ℕ → Rgb) (W H : ℕ) (s : FilterSettings)
      (rnd : ℕ → ℕ → ℚ) (sq : ℚ → ℚ), W < s.pixelSize →
        applyFiltersToCanvas src W H s rnd sq = none) ∧
    workingWidth 2 DEFAULT_SETTINGS.pixelSize = 0 ∧
    workingHeight 2 DEFAULT_SETTINGS.pixelSize = 0 ∧
    applyFiltersToCanvas midGraySource 2 2 DEFAULT_SETTINGS rndZero sqrtZero = none := by
  refine ⟨?_, ?_, ?_, ?_⟩
  · intro src W H s rnd sq hlt
    rw [applyFilters_spec, if_pos (Or.inl (Nat.div_eq_of_lt hlt))]
  · rw [workingWidth_eq]; decide
  · rw [workingHeight_eq]; decide
  · rw [applyFilters_spec, if_pos (Or.inl (by decide))]

/-- Witness for C2's universally quantified part at a concrete degenerate
input: a 2×2 source with the default pixelSize 4. -/
theorem c2_witness :
    applyFiltersToCanvas (fun _ _ _ _ => ⟨0, 0, 0⟩) 2 2 DEFAULT_SETTINGS rndZero sqrtZero = none :=
  c2_no_invalid_dimensions_error.1 (fun _ _ _ _ => ⟨0, 0, 0⟩) 2 2 DEFAULT_SETTINGS
    rndZero sqrtZero (by decide)

/-- C3: the per-pixel tone adjustment computes each channel as
f*(channel-128)+128+brightness with f = 259*(contrast+255)/(255*(259-contrast)),
does NOT clamp the intermediate channel values to [0,255], and then computes
gray = clamp01((0.299 r + 0.587 g + 0.114 b)/255).  The absence of the
intermediate clamp is observable: at contrast 100 on a pure red pixel the
result differs from what channel-clamping would give. -/
theorem c3_tone_adjustment (contrast brightness : ℚ) (p : Rgb) (hc : contrast ≠ 259) :
    grayOf contrast brightness p =
      min 1 (max 0
        ((0.299 * (259 * (contrast + 255) / (255 * (259 - contrast)) * ((p.r : ℚ) - 128) + 128 + brightness) +
          0.587 * (259 * (contrast + 255) / (255 * (259 - contrast)) * ((p.g : ℚ) - 128) + 128 + brightness) +
          0.114 * (259 * (contrast + 255) / (255 * (259 - contrast)) * ((p.b : ℚ) - 128) + 128 + brightness)) / 255)) ∧
    grayOf 100 0 ⟨255, 0, 0⟩ ≠ grayOfClampedChannels 100 0 ⟨255, 0, 0⟩ := by
  constructor
  · rfl
  · norm_num [grayOf, grayOfClampedChannels, clamp01, luminance, adjustChannel,
      contrastFactor, min_def, max_def]

/-- Witness for C3 at contrast 100 (≠ 259), exhibiting the observable
difference between the engine's unclamped tone step and a channel-clamped one. -/
theorem c3_witness :
    (100 : ℚ) ≠ 259 ∧ grayOf 100 0 ⟨255, 0, 0⟩ ≠ grayOfClampedChannels 100 0 ⟨255, 0, 0⟩ :=
  ⟨by norm_num, (c3_tone_adjustment 100 0 ⟨255, 0, 0⟩ (by norm_num)).2⟩

/-- C4: in THRESHOLD mode — which is also the `default` fallback for any mode
string other than BAYER, HALFTONE, STOCHASTIC — with invert=false, the decision
is bit = 1 iff gray > threshold/255; at gray exactly threshold/255 the bit
is 0 (the boundary comparison is strict). -/
theorem c4_threshold_boundary_exclusive (s : FilterSettings) (rnd : ℕ → ℕ → ℚ)
    (sq : ℚ → ℚ) (x y : ℕ) (gray : ℚ) (h1 : s.mode ≠ "BAYER") (h2 : s.mode ≠ "HALFTONE")
    (h3 : s.mode ≠ "STOCHASTIC") (hinv : s.invert = false) :
    (pixelBit s.mode s.threshold s.dotScale s.invert rnd sq x y gray = 1 ↔
      gray > s.threshold / 255) ∧
    (gray = s.threshold / 255 →
      pixelBit s.mode s.threshold s.dotScale s.invert rnd sq x y gray = 0) := by
  simp only [pixelBit, ditherOutput, if_neg h1, if_neg h2, if_neg h3, hinv,
    Bool.false_eq_true, if_false]
  constructor
  · split_ifs with h <;> simp [h]
  · intro h
    subst h
    simp [lt_irrefl]

/-- Witness for C4: default settings with mode THRESHOLD, a pixel whose gray is
exactly threshold/255 = 128/255, classified 0. -/
theorem c4_witness :
    pixelBit "THRESHOLD" 128 1.2 false rndZero sqrtZero 0 0 (128 / 255) = 0 := by
  have h := c4_threshold_boundary_exclusive { DEFAULT_SETTINGS with mode := "THRESHOLD" }
    rndZero sqrtZero 0 0 (128 / 255) (by decide) (by decide) (by decide) rfl
  exact h.2 rfl

/-- The RGBA value the palette map writes for a given hex colour: its parsed
channels with the alpha channel forced to 255. -/
def paletteRgba (hex : String) : Rgba :=
  let c := hexToRgb hex
  ⟨c.r, c.g, c.b, 255⟩

/-- The dither decision always yields a binary output. -/
theorem ditherOutput_eq_zero_or_one (mode : String) (threshold dotScale : ℚ)
    (rnd : ℕ → ℕ → ℚ) (sq : ℚ → ℚ) (x y : ℕ) (gray : ℚ) :
    ditherOutput mode threshold dotScale rnd sq x y gray = 0 ∨
    ditherOutput mode threshold dotScale rnd sq x y gray = 1 := by
  simp only [ditherOutput]
  split_ifs <;> simp

/-- C5: every pixel of any output buffer the transform produces equals colorA
or colorB (as parsed by hexToRgb) with the alpha channel 255 — no third colour
appears, for any non-stochastic mode. -/
theorem c5_palette_containment (src : ℕ → ℕ → ℕ → ℕ → Rgb) (W H : ℕ)
    (s : FilterSettings) (rnd : ℕ → ℕ → ℚ) (sq : ℚ → ℚ) (hm : s.mode ≠ "STOCHASTIC")
    (buf : Buffer) (hbuf : applyFiltersToCanvas src W H s rnd sq = some buf) (X Y : ℕ) :
    buf.pix X Y = paletteRgba s.colorA ∨ buf.pix X Y = paletteRgba s.colorB := by
  rw [applyFilters_spec] at hbuf
  by_cases hz : W / s.pixelSize = 0 ∨ H / s.pixelSize = 0
  · rw [if_pos hz] at hbuf
    cases hbuf
  · rw [if_neg hz] at hbuf
    simp only [Option.some.injEq] at hbuf
    subst hbuf
    simp only [workingPixel]
    by_cases hb : pixelBit s.mode s.threshold s.dotScale s.invert rnd sq
        (X * (W / s.pixelSize) / W) (Y * (H / s.pixelSize) / H)
        (grayOf s.contrast s.brightness
          (src (W / s.pixelSize) (H / s.pixelSize)
            (X * (W / s.pixelSize) / W) (Y * (H / s.pixelSize) / H))) = 1
    · right
      simp [hb, paletteRgba]
    · left
      simp [hb, paletteRgba]

/-- The concrete output buffer of the spec's 8×8 mid-gray scenario under the
default settings: 8×8 output sampling a 2×2 working buffer. -/
def c5WitnessBuffer : Buffer :=
  { width := 8
    height := 8
    pix := fun X Y => workingPixel DEFAULT_SETTINGS midGraySource rndZero sqrtZero
      (8 / DEFAULT_SETTINGS.pixelSize) (8 / DEFAULT_SETTINGS.pixelSize)
      (X * (8 / DEFAULT_SETTINGS.pixelSize) / 8) (Y * (8 / DEFAULT_SETTINGS.pixelSize) / 8) }

/-- Witness for C5 on that concrete scenario buffer. -/
theorem c5_witness :
    c5WitnessBuffer.pix 0 0 = paletteRgba DEFAULT_SETTINGS.colorA ∨
    c5WitnessBuffer.pix 0 0 = paletteRgba DEFAULT_SETTINGS.colorB :=
  c5_palette_containment midGraySource 8 8 DEFAULT_SETTINGS rndZero sqrtZero (by decide)
    c5WitnessBuffer
    (by
      rw [applyFilters_spec, if_neg (show
        ¬(8 / DEFAULT_SETTINGS.pixelSize = 0 ∨ 8 / DEFAULT_SETTINGS.pixelSize = 0) by decide)]
      rfl)
    0 0

/-- Flipping `invert` produces at each working pixel exactly the colour the
non-inverted transform produces with colorA and colorB swapped. -/
theorem workingPixel_invert (s : FilterSettings) (src : ℕ → ℕ → ℕ → ℕ → Rgb)
    (rnd : ℕ → ℕ → ℚ) (sq : ℚ → ℚ) (w h x y : ℕ) :
    workingPixel { s with invert := true } src rnd sq w h x y =
      workingPixel { s with invert := false, colorA := s.colorB, colorB := s.colorA }
        src rnd sq w h x y := by
  simp only [workingPixel, pixelBit]
  rcases ditherOutput_eq_zero_or_one s.mode s.threshold s.dotScale rnd sq x y
      (grayOf s.contrast s.brightness (src w h x y)) with hD | hD <;>
    simp [hD]

/-- C6: for every source and configuration with a non-stochastic mode, the
transform with invert=true equals the transform with invert=false and the two
palette colours swapped. -/
theorem c6_invert_law (src : ℕ → ℕ → ℕ → ℕ → Rgb) (W H : ℕ) (s : FilterSettings)
    (rnd : ℕ → ℕ → ℚ) (sq : ℚ → ℚ) (hm : s.mode ≠ "STOCHASTIC") :
    applyFiltersToCanvas src W H { s with invert := true } rnd sq =
      applyFiltersToCanvas src W H
        { s with invert := false, colorA := s.colorB, colorB := s.colorA } rnd sq := by
  rw [applyFilters_spec, applyFilters_spec]
  by_cases hz : W / s.pixelSize = 0 ∨ H / s.pixelSize = 0
  · rw [if_pos hz, if_pos hz]
  · rw [if_neg hz, if_neg hz]
    congr 1
    refine Buffer.ext rfl rfl ?_
    funext X Y
    exact workingPixel_invert s src rnd sq (W / s.pixelSize) (H / s.pixelSize)
      (X * (W / s.pixelSize) / W) (Y * (H / s.pixelSize) / H)

/-- Witness for C6 at the 8×8 mid-gray scenario under the default (BAYER)
settings. -/
theorem c6_witness :
    applyFiltersToCanvas midGraySource 8 8 { DEFAULT_SETTINGS with invert := true }
        rndZero sqrtZero =
      applyFiltersToCanvas midGraySource 8 8
        { DEFAULT_SETTINGS with
          invert := false
          colorA := DEFAULT_SETTINGS.colorB
          colorB := DEFAULT_SETTINGS.colorA }
        rndZero sqrtZero :=
  c6_invert_law midGraySource 8 8 DEFAULT_SETTINGS rndZero sqrtZero (by decide)

/-- The dither decision reads the random source only in the STOCHASTIC branch. -/
theorem ditherOutput_rnd_irrel (mode : String) (threshold dotScale : ℚ)
    (rnd1 rnd2 : ℕ → ℕ → ℚ) (sq : ℚ → ℚ) (x y : ℕ) (gray : ℚ)
    (hm : mode ≠ "STOCHASTIC") :
    ditherOutput mode threshold dotScale rnd1 sq x y gray =
      ditherOutput mode threshold dotScale rnd2 sq x y gray := by
  simp only [ditherOutput]
  by_cases h1 : mode = "BAYER"
  · simp [h1]
  · by_cases h2 : mode = "HALFTONE"
    · simp [h1, h2]
    · simp [h1, h2, hm]

/-- C7: two invocations of the transform on the same source with the same
configuration in a non-stochastic mode produce identical output buffers, no
matter which random draws the platform supplies to each. -/
theorem c7_deterministic (src : ℕ → ℕ → ℕ → ℕ → Rgb) (W H : ℕ) (s : FilterSettings)
    (rnd1 rnd2 : ℕ → ℕ → ℚ) (sq : ℚ → ℚ) (hm : s.mode ≠ "STOCHASTIC") :
    applyFiltersToCanvas src W H s rnd1 sq = applyFiltersToCanvas src W H s rnd2 sq := by
  rw [applyFilters_spec, applyFilters_spec]
  by_cases hz : W / s.pixelSize = 0 ∨ H / s.pixelSize = 0
  · rw [if_pos hz, if_pos hz]
  · rw [if_neg hz, if_neg hz]
    congr 1
    refine Buffer.ext rfl rfl ?_
    funext X Y
    simp only [workingPixel, pixelBit,
      ditherOutput_rnd_irrel s.mode s.threshold s.dotScale rnd1 rnd2 sq
        (X * (W / s.pixelSize) / W) (Y * (H / s.pixelSize) / H)
        (grayOf s.contrast s.brightness
          (src (W / s.pixelSize) (H / s.pixelSize)
            (X * (W / s.pixelSize) / W) (Y * (H / s.pixelSize) / H))) hm]

/-- Witness for C7: the default (BAYER) settings give the same result under two
different random sources. -/
theorem c7_witness :
    applyFiltersToCanvas midGraySource 8 8 DEFAULT_SETTINGS rndZero sqrtZero =
      applyFiltersToCanvas midGraySource 8 8 DEFAULT_SETTINGS (fun _ _ => 1 / 2) sqrtZero :=
  c7_deterministic midGraySource 8 8 DEFAULT_SETTINGS rndZero (fun _ _ => 1 / 2) sqrtZero
    (by decide)

/-- The partial configuration object returned by the AI suggestion collaborator
(`analyzeImageStyle` parses the model's JSON with no range validation; on
failure it returns an empty object, i.e. all fields absent). -/
structure AiSuggestion where
  pixelSize : Option ℕ
  contrast : Option ℚ
  brightness : Option ℚ
  threshold : Option ℚ
  mode : Option String

/-- Source `setSettings(prev => ({ ...prev, ...suggested }))` in `runAiAnalysis`:
object spread — every key present in the suggestion overrides the previous
value verbatim, with no clamping or validation anywhere on this path. -/
def mergeSuggestion (prev : FilterSettings) (sug : AiSuggestion) : FilterSettings :=
  { prev with
    pixelSize := sug.pixelSize.getD prev.pixelSize
    contrast := sug.contrast.getD prev.contrast
    brightness := sug.brightness.getD prev.brightness
    threshold := sug.threshold.getD prev.threshold
    mode := sug.mode.getD prev.mode }

/-- Clamping performed by an HTML range input with the given min/max: the
contrast slider in App.tsx has min=-100, max=100, so MANUAL contrast input is
confined to [-100, 100]. -/
def rangeInputClamp (lo hi v : ℚ) : ℚ :=
  min hi (max lo v)

/-- A syntactically well-formed AI response carrying contrast = 259 (the JSON
schema constrains `contrast` only to be a number). -/
def degenerateSuggestion : AiSuggestion :=
  ⟨some 8, some 259, some 0, some 128, some "THRESHOLD"⟩

/-- C8 (code-bug demonstration): merging an AI suggestion with contrast 259
into the settings delivers contrast 259 to the engine unchanged, making the
denominator of the engine's contrast factor exactly zero — no validation
intervenes on that path.  The slider, by contrast, does clamp 259 down
to 100, so only the suggestion-merge path is exposed. -/
theorem c8_degenerate_contrast_reaches_engine :
    (mergeSuggestion DEFAULT_SETTINGS degenerateSuggestion).contrast = 259 ∧
    255 * (259 - (mergeSuggestion DEFAULT_SETTINGS degenerateSuggestion).contrast) = 0 ∧
    rangeInputClamp (-100) 100 259 = 100 := by
  refine ⟨rfl, ?_, ?_⟩
  · norm_num [mergeSuggestion, degenerateSuggestion]
  · norm_num [rangeInputClamp, min_def, max_def]

/-- The video element state during export; times are in milliseconds and
`durationMs = none` models an unknown (NaN) duration. -/
structure VideoState where
  currentTimeMs : ℕ
  durationMs : Option ℕ
  ended : Bool
  loopAttr : Bool

/-- Advance a playing video by `dt` milliseconds, returning the new state and
whether the `ended` event fired.  Standard media-element semantics: on reaching
the end of the media, a video carrying the `loop` attribute — and App.tsx
renders the export video element with `loop` — seeks back to the start and
keeps playing WITHOUT firing `ended`; only a non-looping video sets `ended`
and fires the event. -/
def videoAdvance (v : VideoState) (dt : ℕ) : VideoState × Bool :=
  match v.durationMs with
  | none => ({ v with currentTimeMs := v.currentTimeMs + dt }, false)
  | some d =>
    let t := v.currentTimeMs + dt
    if t < d then ({ v with currentTimeMs := t }, false)
    else if v.loopAttr then ({ v with currentTimeMs := t - d }, false)
    else ({ v with currentTimeMs := d, ended := true }, true)

/-- The driver flags of `MediaState` touched by the export path, plus whether
the MediaRecorder and the 500 ms progress interval are still active. -/
structure ExportDriverState where
  isExporting : Bool
  exportProgress : ℕ
  recorderActive : Bool
  intervalActive : Bool

/-- One tick of the `setInterval(..., 500)` progress callback in
`exportMedia`: `if (!video.duration) return` skips unknown (NaN) and zero
durations; otherwise progress becomes
`Math.min(100, Math.floor(currentTime / duration * 100))`, and once
`video.ended` holds the interval clears itself. -/
def progressTick (v : VideoState) (e : ExportDriverState) : ExportDriverState :=
  if e.intervalActive then
    match v.durationMs with
    | none => e
    | some d =>
      if d = 0 then e
      else
        let e2 := { e with exportProgress := min 100 (v.currentTimeMs * 100 / d) }
        if v.ended then { e2 with intervalActive := false } else e2
  else e

/-- The `ended` listener: `recorder.stop()`, whose `onstop` handler resets the
export flag and the progress to zero. -/
def handleEnded (e : ExportDriverState) : ExportDriverState :=
  if e.recorderActive then
    { e with isExporting := false, exportProgress := 0, recorderActive := false }
  else e

/-- Start of the video export run in `exportMedia`: set the export flag, zero
the progress, rewind the video to 0, start the recorder and the progress
interval, and play. -/
def exportRunStart (v : VideoState) : VideoState × ExportDriverState :=
  ({ v with currentTimeMs := 0, ended := false },
   { isExporting := true, exportProgress := 0, recorderActive := true, intervalActive := true })

/-- One 500 ms slice of the export run: playback advances half a second, a
fired `ended` event stops the recorder, then the progress interval ticks. -/
def exportStep (st : VideoState × ExportDriverState) : VideoState × ExportDriverState :=
  let av := videoAdvance st.1 500
  let e2 := if av.2 then handleEnded st.2 else st.2
  (av.1, progressTick av.1 e2)

/-- Iterate the export run for a number of 500 ms slices. -/
def exportSteps : ℕ → VideoState × ExportDriverState → VideoState × ExportDriverState
  | 0, st => st
  | n + 1, st => exportSteps n (exportStep st)

/-- A 1-second video as the export source, with the `loop` attribute as given. -/
def demoVideo (loopAttr : Bool) : VideoState :=
  { currentTimeMs := 300, durationMs := some 1000, ended := false, loopAttr := loopAttr }

/-- The export run on the demo video after `n` slices. -/
def exportDemo (loopAttr : Bool) (n : ℕ) : VideoState × ExportDriverState :=
  exportSteps n (exportRunStart (demoVideo loopAttr))

/-- The progress tick never changes the export flag. -/
theorem progressTick_isExporting (v : VideoState) (e : ExportDriverState) :
    (progressTick v e).isExporting = e.isExporting := by
  cases hd : v.durationMs <;> simp only [progressTick, hd] <;> split_ifs <;> rfl

/-- A video with the `loop` attribute never fires `ended`, and keeps the
attribute. -/
theorem videoAdvance_loop (v : VideoState) (dt : ℕ) (hl : v.loopAttr = true) :
    (videoAdvance v dt).2 = false ∧ (videoAdvance v dt).1.loopAttr = true := by
  cases hd : v.durationMs with
  | none => simp [videoAdvance, hd, hl]
  | some d =>
    simp only [videoAdvance, hd]
    split_ifs <;> simp_all

/-- One export slice on a looping video preserves the loop attribute and the
export flag. -/
theorem exportStep_loop_invariant (st : VideoState × ExportDriverState)
    (hl : st.1.loopAttr = true) (he : st.2.isExporting = true) :
    (exportStep st).1.loopAttr = true ∧ (exportStep st).2.isExporting = true := by
  have hv := videoAdvance_loop st.1 500 hl
  simp only [exportStep, hv.1, if_false, Bool.false_eq_true, progressTick_isExporting]
  exact ⟨hv.2, he⟩

/-- On a looping video the export flag, once set, stays set through every
slice of the run. -/
theorem exportSteps_isExporting : ∀ (n : ℕ) (st : VideoState × ExportDriverState),
    st.1.loopAttr = true → st.2.isExporting = true →
    (exportSteps n st).2.isExporting = true := by
  intro n
  induction n with
  | zero => intro st _ he; exact he
  | succ n ih =>
    intro st hl he
    have h := exportStep_loop_invariant st hl he
    exact ih (exportStep st) h.1 h.2

/-- C9 (code-bug demonstration): because the export video element is rendered
with the `loop` attribute, the `ended` event never fires during an export run:
the export-in-progress flag never returns to false (for any number of 500 ms
slices), and the reported progress is NOT monotone — on the 1-second demo
video it reads 50 after one slice and drops back to 0 after two, while the
recorder keeps running.  Without the `loop` attribute the same run ends with
the flag reset to false after two slices. -/
theorem c9_export_never_completes :
    (∀ (n : ℕ) (v : VideoState), v.loopAttr = true →
      (exportSteps n (exportRunStart v)).2.isExporting = true) ∧
    (exportDemo true 1).2.exportProgress = 50 ∧
    (exportDemo true 2).2.exportProgress = 0 ∧
    (exportDemo true 2).2.isExporting = true ∧
    (exportDemo true 2).2.recorderActive = true ∧
    (exportDemo false 2).2.isExporting = false := by
  refine ⟨?_, by decide, by decide, by decide, by decide, by decide⟩
  intro n v hl
  exact exportSteps_isExporting n (exportRunStart v) hl rfl

/-- Witness for C9's universally quantified part after three slices on the
looping demo video. -/
theorem c9_witness :
    (exportSteps 3 (exportRunStart (demoVideo true))).2.isExporting = true :=
  c9_export_never_completes.1 3 (demoVideo true) rfl

/-- C10: in STOCHASTIC mode with invert=false, the randomized threshold
surface rnd*0.6 + (threshold/255)*0.4 is confined to
[0.4*(threshold/255), 0.6 + 0.4*(threshold/255)) for every random draw in
[0,1); hence a pixel with gray ≤ 0.4*(threshold/255) is always classified 0
and a pixel with gray ≥ 0.6 + 0.4*(threshold/255) is always classified 1. -/
theorem c10_stochastic_envelope (s : FilterSettings) (rnd : ℕ → ℕ → ℚ) (sq : ℚ → ℚ)
    (x y : ℕ) (gray : ℚ) (hm : s.mode = "STOCHASTIC") (hinv : s.invert = false)
    (h0 : 0 ≤ rnd x y) (h1 : rnd x y < 1) :
    (0.4 * (s.threshold / 255) ≤ rnd x y * 0.6 + s.threshold / 255 * 0.4 ∧
     rnd x y * 0.6 + s.threshold / 255 * 0.4 < 0.6 + 0.4 * (s.threshold / 255)) ∧
    (gray ≤ 0.4 * (s.threshold / 255) →
      pixelBit s.mode s.threshold s.dotScale s.invert rnd sq x y gray = 0) ∧
    (0.6 + 0.4 * (s.threshold / 255) ≤ gray →
      pixelBit s.mode s.threshold s.dotScale s.invert rnd sq x y gray = 1) := by
  have hr0 : 0 ≤ rnd x y * 0.6 := mul_nonneg h0 (by norm_num)
  have hr1 : rnd x y * 0.6 < 0.6 := by
    have := mul_lt_mul_of_pos_right h1 (show (0 : ℚ) < 0.6 by norm_num)
    linarith
  refine ⟨⟨by linarith, by linarith⟩, ?_, ?_⟩
  · intro hg
    have hcond : ¬(gray > rnd x y * 0.6 + s.threshold / 255 * 0.4) := by
      simp only [gt_iff_lt, not_lt]
      linarith
    simp [pixelBit, ditherOutput, hm, hinv, hcond]
  · intro hg
    have hcond : gray > rnd x y * 0.6 + s.threshold / 255 * 0.4 := by
      simp only [gt_iff_lt]
      linarith
    simp [pixelBit, ditherOutput, hm, hinv, hcond]

/-- A random source that always draws 1/2. -/
def rndHalf : ℕ → ℕ → ℚ := fun _ _ => 1 / 2

/-- Witness for C10 at the default settings switched to STOCHASTIC, a draw of
1/2 and a fully dark pixel (gray = 0 ≤ 0.4·(128/255)): classified 0. -/
theorem c10_witness :
    pixelBit "STOCHASTIC" 128 1.2 false rndHalf sqrtZero 0 0 0 = 0 := by
  have h := c10_stochastic_envelope { DEFAULT_SETTINGS with mode := "STOCHASTIC" }
    rndHalf sqrtZero 0 0 0 rfl rfl (by norm_num [rndHalf]) (by norm_num [rndHalf])
  exact h.2.1 (by norm_num [DEFAULT_SETTINGS])
